import Mathlib

/-!
# Verification of the textconf configuration-to-template binding layer

Shallow embedding of the textconf repository (`src/textconf/config.py`,
`src/textconf/enum.py`, and the template-resolution / rendering layer
described in the specification).  Paths are modelled as lists of
components, the filesystem as the list of existing files, Python
dictionaries as association lists (first binding wins on lookup), and
exceptions as `Except` values.
-/

set_option autoImplicit false

universe u v w

/-! ## Paths and the filesystem -/

/-- A filesystem path: either absolute or relative, as a list of components. -/
structure TPath where
  absolute : Bool
  components : List String
deriving DecidableEq, BEq

/-- The filesystem is the list of files that exist, each an absolute path
given by its components from the root. -/
abbrev FS : Type := List (List String)

/-- The extra component contributed by the optional `dir` argument of
`get_template_file` (`dir=None` contributes nothing). -/
def dirComps : Option String → List String
  | none => []
  | some d => [d]

/-- The display name of a template reference, used in error messages. -/
def refName (ref : TPath) : String :=
  String.intercalate "/" ref.components

/-- Interpret a template reference as a concrete path: an absolute
reference stands for itself; a relative one is joined below the current
working directory, under the optional `dir` subdirectory. -/
def resolveRef (cwd : List String) (dir : Option String) (ref : TPath) : List String :=
  if ref.absolute then ref.components else cwd ++ dirComps dir ++ ref.components

/-- Walk from a directory upward: the directory, its parent, grandparent,
…, down to the filesystem root (the empty component list).  The fuel
argument bounds the number of steps; it is instantiated with the
directory's depth. -/
def ancestorsAux : Nat → List String → List (List String)
  | _, [] => [[]]
  | 0, d => [d]
  | n + 1, d => d :: ancestorsAux n d.dropLast

/-- The directory `d` followed by its parent, grandparent, …, down to the
filesystem root (modelled as the empty component list). -/
def ancestors (d : List String) : List (List String) :=
  ancestorsAux d.length d

/-- The error message of the not-found failure of `get_template_file`;
it names the original reference. -/
def fileNotFoundMsg (ref : TPath) : String :=
  "Template file not found: " ++ refName ref

/-- Modelled from the spec: `get_template_file` of the missing module
`textconf/template.py` (the Template Resolver, spec §4.1).  Step 1: if the
reference, interpreted as a path (absolute, or relative to `cwd`,
optionally joined with `dir`), already exists, return it.  Steps 2–3:
otherwise try the directory holding the class's source, then each of its
ancestors, joining with `dir` and the reference at each.  Step 4: if no
candidate exists, fail with a not-found error naming the reference. -/
def get_template_file (fs : FS) (cwd clsDir : List String)
    (ref : TPath) (dir : Option String) : Except String (List String) :=
  let cand := resolveRef cwd dir ref
  if cand ∈ fs then Except.ok cand
  else
    match (ancestors clsDir).find? (fun a => decide ((a ++ dirComps dir ++ ref.components) ∈ fs)) with
    | some a => Except.ok (a ++ dirComps dir ++ ref.components)
    | none => Except.error (fileNotFoundMsg ref)

/-! ## The parameter merge of `BaseConfig.render`

`config.py` lines 85–89:

    params = kwargs.copy()
    for name, obj in iter_template_methods(cls):
        if name not in params:
            params[name] = obj(cfg)

Dictionaries are association lists whose lookup returns the first
binding; insertion of a fresh key appends it (Python dict insertion
order). -/

variable {Cfg : Type u} {V : Type v} {E : Type w}

/-- The parameter set built by `BaseConfig.render`: a copy of `kwargs`
into which each discovered template method's result is inserted, in
discovery order, unless its name is already a key. -/
def mergeParams (methods : List (String × (Cfg → V))) (cfg : Cfg)
    (kwargs : List (String × V)) : List (String × V) :=
  methods.foldl
    (fun params nm =>
      if (params.lookup nm.1).isSome then params else params ++ [(nm.1, nm.2 cfg)])
    kwargs

/-! ## `BaseConfig.render` (config.py lines 58–92)

The class is abstracted by a `RenderModel`: its `update` hook (in-place
mutation becomes explicit state passing, a raised exception becomes
`Except.error`), the output of `iter_template_methods` applied to it (the
discovered template methods, in discovery order), the `_template_` field
read off the configuration, and the low-level renderer `render` of the
missing `textconf/render.py` together with the class's `set_environment`
hook (abstracted as `renderFn`, which may itself fail). -/

structure RenderModel (Cfg : Type u) (V : Type v) (E : Type w) where
  update : Cfg → Except E Cfg
  methods : List (String × (Cfg → V))
  template : Cfg → TPath
  fnfErr : String → E
  renderFn : List String → Cfg → List (String × V) → Except E String

/-- `BaseConfig.render`: run the `update` hook, build the parameter set
from `kwargs` and the discovered template methods, resolve the template
file from the configuration's `_template_` field, and delegate to the
renderer.  The returned pair carries the rendered string together with
the post-`update` configuration (the caller's instance, mutated in
place in the source). -/
def BaseConfig.render (M : RenderModel Cfg V E) (fs : FS) (cwd clsDir : List String)
    (cfg : Cfg) (kwargs : List (String × V)) : Except E (String × Cfg) :=
  match M.update cfg with
  | Except.error e => Except.error e
  | Except.ok cfg1 =>
    let params := mergeParams M.methods cfg1 kwargs
    match get_template_file fs cwd clsDir (M.template cfg1) none with
    | Except.error msg => Except.error (M.fnfErr msg)
    | Except.ok tf => (M.renderFn tf cfg1 params).map (fun s => (s, cfg1))

/-! ## `RenderableEnum.render` (enum.py lines 18–36) -/

/-- A Python exception, distinguished by its class. -/
inductive PyExc where
  | valueError (msg : String)
  | typeError (msg : String)
  | lookupError (msg : String)
deriving DecidableEq

/-- A module-level binding as seen by the enum dispatch: either a class
(with its subtype-of-`Renderable` status and its `render` classmethod) or
a value that is not a class. -/
inductive Member (Cfg : Type u) (Out : Type v) where
  | cls (renderable : Bool) (render : Cfg → Out)
  | value

/-- `RenderableEnum.render`: scan the bindings of the member's defining
module; on a binding whose name equals the member's name, test
`issubclass(obj, Renderable)` — a `TypeError` if the binding is not a
class, forwarding to `obj.render(cfg)` if the subtype test succeeds —
and raise `ValueError("No renderable class found for <name>")` when the
scan is exhausted. -/
def RenderableEnum.render {Cfg : Type u} {Out : Type v} :
    List (String × Member Cfg Out) → String → Cfg → Except PyExc Out
  | [], selfName, _ =>
      Except.error (PyExc.valueError ("No renderable class found for " ++ selfName))
  | (name, m) :: rest, selfName, cfg =>
      if name = selfName then
        match m with
        | Member.value =>
            Except.error (PyExc.typeError "issubclass() arg 1 must be a class")
        | Member.cls true r => Except.ok (r cfg)
        | Member.cls false _ => RenderableEnum.render rest selfName cfg
      else RenderableEnum.render rest selfName cfg

/-! ## The rendering engine of the filter scenario

`textconf/render.py` and the external template engine are not part of
`src/` (only their callers and tests are), so the renderer is modelled
from the specification (§4.3 and the §8 filter scenario).  The engine's
numeric values are floats in the source; the scenario's arithmetic
(`10 + 1`) is exact and integral, so values are modelled as integers
displayed in the engine's float form (`11` prints as `11.0`). -/

/-- Modelled from the spec: a parsed template of the external engine —
literal text segments and variable interpolations, the latter optionally
passed through a named filter. -/
inductive Seg where
  | lit (s : String)
  | var (varName : String) (filterName : Option String)

/-- Modelled from the spec: the engine environment holding the custom
filters installed by the configuration class's `set_environment` hook. -/
structure JEnv where
  filters : List (String × (Int → Int))

/-- Modelled from the spec: the engine's display of a numeric (float)
value: an integral float prints with a trailing `.0`. -/
def showVal (v : Int) : String :=
  toString v ++ ".0"

/-- Modelled from the spec: render a parsed template against a context,
applying filters looked up in the environment; an undefined variable or
filter is an engine error that propagates. -/
def renderSegs (env : JEnv) (ctx : List (String × Int)) : List Seg → Except String String
  | [] => Except.ok ""
  | Seg.lit s :: rest => (renderSegs env ctx rest).map (fun r => s ++ r)
  | Seg.var v none :: rest =>
    match ctx.lookup v with
    | some x => (renderSegs env ctx rest).map (fun r => showVal x ++ r)
    | none => Except.error ("undefined variable " ++ v)
  | Seg.var v (some f) :: rest =>
    match ctx.lookup v, env.filters.lookup f with
    | some x, some fl => (renderSegs env ctx rest).map (fun r => showVal (fl x) ++ r)
    | _, _ => Except.error ("undefined variable or filter " ++ v)

/-! ### The §8 filter scenario (tests/config/test_env.py) -/

/-- The scenario's custom filter `myfilter(x, a=1) = x + a`, applied with
its default argument `a = 1` as in the template `{{a|myfilter}}`. -/
def myfilter (x : Int) : Int := x + 1

/-- The scenario's `set_environment` hook: register `myfilter` into the
engine environment before rendering. -/
def set_environment (env : JEnv) : JEnv :=
  { filters := ("myfilter", myfilter) :: env.filters }

/-- The scenario's template text `A{{a|myfilter}}|`, parsed. -/
def filterTemplate : List Seg :=
  [Seg.lit "A", Seg.var "a" (some "myfilter"), Seg.lit "|"]

/-- The scenario's configuration record: fields `a` and `b`. -/
structure EnvConfig where
  a : Int
  b : Int
deriving DecidableEq

/-- The scenario's configuration class: no overridden `update`, no
template methods, template reference `template.jinja`, and a renderer
that runs `set_environment` on a fresh engine environment and renders
the parsed template against the configuration's fields merged with the
parameter set (parameters take precedence). -/
def envScenario : RenderModel EnvConfig Int String where
  update := fun c => Except.ok c
  methods := []
  template := fun _ => ⟨false, ["template.jinja"]⟩
  fnfErr := id
  renderFn := fun _ cfg params =>
    renderSegs (set_environment ⟨[]⟩)
      (params ++ [("a", cfg.a), ("b", cfg.b)]) filterTemplate

/-! ### A configuration class with a non-idempotent `update` hook -/

/-- A configuration class whose overriding `update` hook increments the
(numeric) configuration in place, and whose renderer displays it. -/
def bumpModel : RenderModel Nat Nat String where
  update := fun n => Except.ok (n + 1)
  methods := []
  template := fun _ => ⟨false, ["t.jinja"]⟩
  fnfErr := id
  renderFn := fun _ cfg _ => Except.ok (Nat.repr cfg)

/-- One step of the parameter-merge loop of `BaseConfig.render` (the body
of the `for name, obj in iter_template_methods(cls)` loop). -/
def mergeStep (cfg : Cfg) (params : List (String × V)) (nm : String × (Cfg → V)) :
    List (String × V) :=
  if (params.lookup nm.1).isSome then params else params ++ [(nm.1, nm.2 cfg)]

/-- A configuration class whose `update` hook is the default no-op and
whose renderer displays the (numeric) configuration. -/
def fixModel : RenderModel Nat Nat String where
  update := fun n => Except.ok n
  methods := []
  template := fun _ => ⟨false, ["t.jinja"]⟩
  fnfErr := id
  renderFn := fun _ cfg _ => Except.ok (Nat.repr cfg)

/-! ## Association-list lookup helpers -/

theorem lookup_append_some {α : Type u} {β : Type v} [BEq α] {xs : List (α × β)}
    {k : α} {v : β} (ys : List (α × β)) (h : xs.lookup k = some v) :
    (xs ++ ys).lookup k = some v := by
  induction xs with
  | nil => simp [List.lookup] at h
  | cons p xs ih =>
    obtain ⟨a, b⟩ := p
    rw [List.cons_append]
    cases hb : k == a with
    | true => simpa [List.lookup, hb] using h
    | false =>
      simp only [List.lookup, hb] at h ⊢
      exact ih h

theorem lookup_append_none_left {α : Type u} {β : Type v} [BEq α] {xs ys : List (α × β)}
    {k : α} (h : (xs ++ ys).lookup k = none) : xs.lookup k = none := by
  induction xs with
  | nil => simp [List.lookup]
  | cons p xs ih =>
    obtain ⟨a, b⟩ := p
    rw [List.cons_append] at h
    cases hb : k == a with
    | true => simp [List.lookup, hb] at h
    | false =>
      simp only [List.lookup, hb] at h ⊢
      exact ih h

theorem mergeParams_eq_foldl (methods : List (String × (Cfg → V))) (cfg : Cfg)
    (kwargs : List (String × V)) :
    mergeParams methods cfg kwargs = methods.foldl (mergeStep cfg) kwargs := rfl

theorem lookup_mergeStep_some {cfg : Cfg} {params : List (String × V)}
    {nm : String × (Cfg → V)} {k : String} {v : V} (h : params.lookup k = some v) :
    (mergeStep cfg params nm).lookup k = some v := by
  unfold mergeStep
  by_cases hs : (params.lookup nm.1).isSome
  · simpa [hs] using h
  · simp only [hs, if_false]
    exact lookup_append_some _ h

theorem lookup_mergeParams_some {methods : List (String × (Cfg → V))} {cfg : Cfg}
    {kwargs : List (String × V)} {k : String} {v : V} (h : kwargs.lookup k = some v) :
    (mergeParams methods cfg kwargs).lookup k = some v := by
  rw [mergeParams_eq_foldl]
  induction methods generalizing kwargs with
  | nil => simpa using h
  | cons nm methods ih =>
    rw [List.foldl_cons]
    exact ih (lookup_mergeStep_some h)

/-- C1: in `BaseConfig.render`, explicit keyword arguments always win: the
merged parameter set maps each `kwargs` key to its explicit value, and a
discovered template method under a key already in `kwargs` is never
invoked — prepending such a method to the discovery sequence leaves the
merged parameter set unchanged, whatever value the method would compute. -/
theorem mergeParams_kwargs_win (methods : List (String × (Cfg → V))) (cfg : Cfg)
    (kwargs : List (String × V)) (k : String) (v : V) (f : Cfg → V)
    (h : kwargs.lookup k = some v) :
    (mergeParams methods cfg kwargs).lookup k = some v ∧
      mergeParams ((k, f) :: methods) cfg kwargs = mergeParams methods cfg kwargs := by
  refine ⟨lookup_mergeParams_some h, ?_⟩
  rw [mergeParams_eq_foldl, mergeParams_eq_foldl, List.foldl_cons]
  have hstep : mergeStep cfg kwargs (k, f) = kwargs := by simp [mergeStep, h]
  rw [hstep]

/-- Witness for C1: `render(cfg, x=5)` keeps `x = 5` in the parameter set
even when a discovered method named `x` computes `7`. -/
theorem mergeParams_kwargs_win_witness :
    (mergeParams [("x", fun _ : Unit => (7 : Nat))] () [("x", 5)]).lookup "x" = some 5 ∧
      mergeParams (("x", fun _ : Unit => (9 : Nat)) :: [("x", fun _ => 7)]) () [("x", 5)] =
        mergeParams [("x", fun _ : Unit => (7 : Nat))] () [("x", 5)] :=
  mergeParams_kwargs_win [("x", fun _ => 7)] () [("x", 5)] "x" 5 (fun _ => 9) rfl

/-- C9: the merged parameter set only extends the caller's keyword-argument
mapping: the original `kwargs` entries are preserved unchanged as a prefix,
and every entry added by the discovery loop has a key absent from `kwargs`
— discovered entries go into the internal copy, never into the caller's
bindings. -/
theorem mergeParams_extends_kwargs (methods : List (String × (Cfg → V))) (cfg : Cfg)
    (kwargs : List (String × V)) :
    ∃ extra, mergeParams methods cfg kwargs = kwargs ++ extra ∧
      ∀ p ∈ extra, kwargs.lookup p.1 = none := by
  rw [mergeParams_eq_foldl]
  suffices h : ∀ (ms : List (String × (Cfg → V))) (acc : List (String × V)),
      (∃ e, acc = kwargs ++ e ∧ ∀ p ∈ e, kwargs.lookup p.1 = none) →
      ∃ e, ms.foldl (mergeStep cfg) acc = kwargs ++ e ∧ ∀ p ∈ e, kwargs.lookup p.1 = none by
    exact h methods kwargs ⟨[], by simp⟩
  intro ms
  induction ms with
  | nil => intro acc hacc; simpa using hacc
  | cons nm ms ih =>
    intro acc hacc
    rw [List.foldl_cons]
    apply ih
    obtain ⟨e, rfl, he⟩ := hacc
    unfold mergeStep
    cases hs : ((kwargs ++ e).lookup nm.1).isSome with
    | true => exact ⟨e, by simp [hs], he⟩
    | false =>
      refine ⟨e ++ [(nm.1, nm.2 cfg)], by simp [hs], ?_⟩
      intro p hp
      rcases List.mem_append.mp hp with hp | hp
      · exact he p hp
      · rw [List.mem_singleton] at hp
        subst hp
        have hnone : (kwargs ++ e).lookup nm.1 = none :=
          Option.not_isSome_iff_eq_none.mp (by simp [hs])
        exact lookup_append_none_left hnone

/-- C6: `BaseConfig.render` runs the `update` hook first; when `update`
raises, the exception propagates unchanged and none of the later steps
matters: the result is that same error for every choice of discovered
methods, template field, resolver inputs, renderer and keyword
arguments. -/
theorem render_update_error_propagates (upd : Cfg → Except E Cfg) (e : E) (cfg : Cfg)
    (methods : List (String × (Cfg → V))) (template : Cfg → TPath) (fnfErr : String → E)
    (renderFn : List String → Cfg → List (String × V) → Except E String)
    (fs : FS) (cwd clsDir : List String) (kwargs : List (String × V))
    (h : upd cfg = Except.error e) :
    BaseConfig.render ⟨upd, methods, template, fnfErr, renderFn⟩ fs cwd clsDir cfg kwargs =
      Except.error e := by
  simp [BaseConfig.render, h]

/-- Witness for C6: a failing `update` hook aborts rendering with its own
error even though the renderer would have succeeded. -/
theorem render_update_error_propagates_witness :
    BaseConfig.render
        ⟨fun _ => Except.error "boom", [], fun _ => ⟨false, ["t.jinja"]⟩, id,
          fun _ _ _ => Except.ok "out"⟩
        [["t.jinja"]] [] [] (0 : Nat) ([] : List (String × Nat)) =
      Except.error "boom" :=
  render_update_error_propagates (fun _ => Except.error "boom") "boom" 0 []
    (fun _ => ⟨false, ["t.jinja"]⟩) id (fun _ _ _ => Except.ok "out")
    [["t.jinja"]] [] [] [] rfl

/-! ## Idempotence of repeated rendering (C5) -/

theorem render_eq_of_update_ok (M : RenderModel Cfg V E) (fs : FS)
    (cwd clsDir : List String) {cfg cfg1 : Cfg} (kwargs : List (String × V))
    (h : M.update cfg = Except.ok cfg1) :
    BaseConfig.render M fs cwd clsDir cfg kwargs =
      match get_template_file fs cwd clsDir (M.template cfg1) none with
      | Except.error msg => Except.error (M.fnfErr msg)
      | Except.ok tf =>
        (M.renderFn tf cfg1 (mergeParams M.methods cfg1 kwargs)).map (fun s => (s, cfg1)) := by
  simp [BaseConfig.render, h]

theorem render_ok_update (M : RenderModel Cfg V E) (fs : FS)
    (cwd clsDir : List String) {cfg cfg2 : Cfg} (kwargs : List (String × V)) {s : String}
    (h : BaseConfig.render M fs cwd clsDir cfg kwargs = Except.ok (s, cfg2)) :
    M.update cfg = Except.ok cfg2 := by
  cases hu : M.update cfg with
  | error e =>
    rw [render_update_error_propagates M.update e cfg M.methods M.template M.fnfErr
      M.renderFn fs cwd clsDir kwargs hu] at h
    exact absurd h (by simp)
  | ok c1 =>
    rw [render_eq_of_update_ok M fs cwd clsDir kwargs hu] at h
    split at h
    · exact absurd h (by simp)
    · cases hr : M.renderFn _ c1 (mergeParams M.methods c1 kwargs) with
      | error e => rw [hr] at h; exact absurd h (by simp [Except.map])
      | ok s1 =>
        rw [hr] at h
        simp only [Except.map, Except.ok.injEq, Prod.mk.injEq] at h
        rw [h.2]

/-- C5 counterexample: a configuration class whose overriding `update`
hook increments the configuration; two successive `render` calls on the
same instance produce the distinct strings `"1"` and `"2"`, refuting the
claim that rendering twice without external mutation always yields
identical output. -/
theorem render_twice_differs :
    BaseConfig.render bumpModel [["t.jinja"]] [] [] 0 [] = Except.ok ("1", 1) ∧
      BaseConfig.render bumpModel [["t.jinja"]] [] [] 1 [] = Except.ok ("2", 2) ∧
      ("1" : String) ≠ "2" :=
  ⟨rfl, rfl, by decide⟩

/-- C5 (amended): calling `render` twice in succession yields identical
strings provided the `update` hook leaves the once-updated configuration
fixed (as the default no-op `update` does): if the first call returns
`s1` with post-`update` state `cfg1` and `update cfg1 = cfg1`, the second
call returns the identical string `s1` (and state `cfg1`). -/
theorem render_twice_idempotent_of_update_fixed (M : RenderModel Cfg V E) (fs : FS)
    (cwd clsDir : List String) (cfg cfg1 : Cfg) (kwargs : List (String × V)) (s1 : String)
    (h1 : BaseConfig.render M fs cwd clsDir cfg kwargs = Except.ok (s1, cfg1))
    (hfix : M.update cfg1 = Except.ok cfg1) :
    BaseConfig.render M fs cwd clsDir cfg1 kwargs = Except.ok (s1, cfg1) := by
  have hu : M.update cfg = Except.ok cfg1 := render_ok_update M fs cwd clsDir kwargs h1
  rw [render_eq_of_update_ok M fs cwd clsDir kwargs hfix,
    ← render_eq_of_update_ok M fs cwd clsDir kwargs hu]
  exact h1

/-- Witness for the amended C5: with the default no-op `update`, the
second of two successive `render` calls returns the same string as the
first. -/
theorem render_twice_idempotent_witness :
    BaseConfig.render fixModel [["t.jinja"]] [] [] 5 [] = Except.ok ("5", 5) :=
  render_twice_idempotent_of_update_fixed fixModel [["t.jinja"]] [] [] 5 5 [] "5" rfl rfl

/-! ## Template-file resolution (C3, C4) -/

theorem ancestors_head (d : List String) : ∃ rest, ancestors d = d :: rest := by
  cases d with
  | nil => exact ⟨[], rfl⟩
  | cons x xs => exact ⟨ancestorsAux xs.length (x :: xs).dropLast, rfl⟩

/-- C3: a reference that, interpreted as a path (absolute, or relative to
the current working directory, optionally joined with the `dir` argument),
already exists is returned as-is, whatever the class's source directory —
the class-source-relative and ancestor search locations are never
consulted; an absolute reference is returned literally. -/
theorem get_template_file_existing (fs : FS) (cwd clsDir : List String)
    (ref : TPath) (dir : Option String)
    (h : resolveRef cwd dir ref ∈ fs) :
    get_template_file fs cwd clsDir ref dir = Except.ok (resolveRef cwd dir ref) ∧
      (ref.absolute = true → resolveRef cwd dir ref = ref.components) := by
  constructor
  · simp [get_template_file, h]
  · intro ha
    simp [resolveRef, ha]

/-- Witness for C3: an existing absolute path is returned unchanged, with
an unrelated class source directory in scope. -/
theorem get_template_file_existing_witness :
    get_template_file [["a", "t.jinja"]] ["w"] ["z"] ⟨true, ["a", "t.jinja"]⟩ none =
        Except.ok ["a", "t.jinja"] ∧
      resolveRef ["w"] none ⟨true, ["a", "t.jinja"]⟩ = ["a", "t.jinja"] := by
  have h := get_template_file_existing [["a", "t.jinja"]] ["w"] ["z"]
    ⟨true, ["a", "t.jinja"]⟩ none (by decide)
  exact ⟨h.1, h.2 rfl⟩

/-- C4: when a bare reference does not exist relative to the current
working directory: if the candidate below the class's source directory
`D` exists, it is returned; otherwise the first directory among `D` and
its ancestors whose candidate (under the same join rule with `dir`)
exists supplies the result; and if no candidate anywhere in the search
order exists, resolution fails with a not-found error naming the
reference. -/
theorem get_template_file_search (fs : FS) (cwd clsDir : List String)
    (ref : TPath) (dir : Option String) (anc : List String)
    (hno : resolveRef cwd dir ref ∉ fs) :
    (clsDir ++ dirComps dir ++ ref.components ∈ fs →
      get_template_file fs cwd clsDir ref dir =
        Except.ok (clsDir ++ dirComps dir ++ ref.components)) ∧
    ((ancestors clsDir).find? (fun a => decide ((a ++ dirComps dir ++ ref.components) ∈ fs)) =
        some anc →
      get_template_file fs cwd clsDir ref dir =
        Except.ok (anc ++ dirComps dir ++ ref.components)) ∧
    ((∀ a ∈ ancestors clsDir, (a ++ dirComps dir ++ ref.components) ∉ fs) →
      get_template_file fs cwd clsDir ref dir = Except.error (fileNotFoundMsg ref)) := by
  have base : get_template_file fs cwd clsDir ref dir =
      match (ancestors clsDir).find?
          (fun a => decide ((a ++ dirComps dir ++ ref.components) ∈ fs)) with
      | some a => Except.ok (a ++ dirComps dir ++ ref.components)
      | none => Except.error (fileNotFoundMsg ref) := by
    unfold get_template_file
    exact if_neg hno
  refine ⟨fun hd => ?_, fun hfind => ?_, fun hall => ?_⟩
  · obtain ⟨rest, hanc⟩ := ancestors_head clsDir
    have hfind : (ancestors clsDir).find?
        (fun a => decide ((a ++ dirComps dir ++ ref.components) ∈ fs)) = some clsDir := by
      rw [hanc]
      exact List.find?_cons_of_pos _ (by simpa using hd)
    rw [base, hfind]
  · rw [base, hfind]
  · have hfind : (ancestors clsDir).find?
        (fun a => decide ((a ++ dirComps dir ++ ref.components) ∈ fs)) = none := by
      rw [List.find?_eq_none]
      intro a ha
      simpa using hall a ha
    rw [base, hfind]

/-- Witness for C4, at the three branch points: the class directory's own
candidate, a grandparent's candidate after the class directory misses,
and exhaustion of the search order. -/
theorem get_template_file_search_witness :
    get_template_file [["d", "n"]] ["w"] ["d"] ⟨false, ["n"]⟩ none =
        Except.ok (["d"] ++ dirComps none ++ ["n"]) ∧
      get_template_file [["n"]] ["w"] ["d"] ⟨false, ["n"]⟩ none =
        Except.ok ([] ++ dirComps none ++ ["n"]) ∧
      get_template_file [] ["w"] ["d"] ⟨false, ["n"]⟩ none =
        Except.error (fileNotFoundMsg ⟨false, ["n"]⟩) :=
  ⟨(get_template_file_search [["d", "n"]] ["w"] ["d"] ⟨false, ["n"]⟩ none [] (by decide)).1
      (by decide),
    (get_template_file_search [["n"]] ["w"] ["d"] ⟨false, ["n"]⟩ none [] (by decide)).2.1
      (by decide),
    (get_template_file_search [] ["w"] ["d"] ⟨false, ["n"]⟩ none [] (by decide)).2.2
      (by decide)⟩

/-! ## Enum dispatch (C2, C7, C10) -/

/-- C2 counterexample: on a module with no binding under the member's
name, `RenderableEnum.render` raises `ValueError("No renderable class
found for A")`, and `ValueError` is not the `LookupError` the claim
states; moreover on a module that binds a non-class value under the
member's name — a case the claim's hypothesis also covers — the call
raises a `TypeError` instead of any "no renderable class found" error. -/
theorem enum_render_error_class_counterexample :
    RenderableEnum.render ([] : List (String × Member Unit Unit)) "A" () =
        Except.error (PyExc.valueError "No renderable class found for A") ∧
      PyExc.valueError "No renderable class found for A" ≠
        PyExc.lookupError "No renderable class found for A" ∧
      RenderableEnum.render [("A", (Member.value : Member Unit Unit))] "A" () =
        Except.error (PyExc.typeError "issubclass() arg 1 must be a class") :=
  ⟨rfl, by decide, rfl⟩

/-- C2 (amended): when the member's defining module binds, under the
member's name, only classes that are not subtypes of `Renderable` (in
particular, when nothing is bound under that name), `render` raises
`ValueError` — not `LookupError` — with message
`"No renderable class found for <name>"`. -/
theorem enum_render_no_renderable {Cfg : Type u} {Out : Type v}
    (module : List (String × Member Cfg Out)) (selfName : String) (cfg : Cfg)
    (h : ∀ nm m, (nm, m) ∈ module → nm = selfName → ∃ r, m = Member.cls false r) :
    RenderableEnum.render module selfName cfg =
      Except.error (PyExc.valueError ("No renderable class found for " ++ selfName)) := by
  induction module with
  | nil => rfl
  | cons p rest ih =>
    obtain ⟨name, m⟩ := p
    have htail : ∀ nm mm, (nm, mm) ∈ rest → nm = selfName → ∃ r, mm = Member.cls false r :=
      fun nm mm hmem heq => h nm mm (List.mem_cons_of_mem _ hmem) heq
    by_cases hn : name = selfName
    · obtain ⟨r, hm⟩ := h name m (List.mem_cons_self _ _) hn
      subst hm
      simp only [RenderableEnum.render, if_pos hn]
      exact ih htail
    · simp only [RenderableEnum.render, if_neg hn]
      exact ih htail

/-- Witness for the amended C2: a module binding a renderable class under
a different name and, under the member's own name, a class that is not a
`Renderable` subtype. -/
theorem enum_render_no_renderable_witness :
    RenderableEnum.render
        [("B", Member.cls true (fun _ : Unit => (3 : Nat))),
          ("A", Member.cls false (fun _ : Unit => (4 : Nat)))] "A" () =
      Except.error (PyExc.valueError ("No renderable class found for " ++ "A")) :=
  enum_render_no_renderable _ "A" () (by
    intro nm m hmem heq
    rcases List.mem_cons.mp hmem with hp | hp
    · injection hp with h1 h2
      subst h1
      exact absurd heq (by decide)
    · rw [List.mem_singleton] at hp
      injection hp with h1 h2
      exact ⟨_, h2⟩)

/-- C7: when the member's defining module binds, under the member's name,
a class that is a subtype of `Renderable`, `render` returns exactly that
class's `render(cfg)`; and the lookup is late-bound — a renderable class
appended to the module after all other bindings (none of which carries
the member's name) is found. -/
theorem enum_render_forwards {Cfg : Type u} {Out : Type v}
    (module : List (String × Member Cfg Out)) (selfName : String)
    (r : Cfg → Out) (cfg : Cfg) :
    (module.find? (fun p => p.1 == selfName) = some (selfName, Member.cls true r) →
      RenderableEnum.render module selfName cfg = Except.ok (r cfg)) ∧
    ((∀ p ∈ module, p.1 ≠ selfName) →
      RenderableEnum.render (module ++ [(selfName, Member.cls true r)]) selfName cfg =
        Except.ok (r cfg)) := by
  constructor
  · intro hfind
    induction module with
    | nil => simp at hfind
    | cons p rest ih =>
      obtain ⟨name, m⟩ := p
      by_cases hn : name = selfName
      · rw [List.find?_cons_of_pos _ (by simp [hn])] at hfind
        simp only [Option.some.injEq, Prod.mk.injEq] at hfind
        obtain ⟨-, hm⟩ := hfind
        subst hm
        simp only [RenderableEnum.render, if_pos hn]
      · rw [List.find?_cons_of_neg _ (by simp [hn])] at hfind
        simp only [RenderableEnum.render, if_neg hn]
        exact ih hfind
  · intro hall
    induction module with
    | nil =>
      simp only [List.nil_append]
      simp [RenderableEnum.render]
    | cons p rest ih =>
      obtain ⟨name, m⟩ := p
      have hn : name ≠ selfName := hall (name, m) (List.mem_cons_self _ _)
      rw [List.cons_append]
      simp only [RenderableEnum.render, if_neg hn]
      exact ih (fun q hq => hall q (List.mem_cons_of_mem _ hq))

/-- Witness for C7: forwarding to a renderable class bound under the
member's name, and finding a renderable class bound after an unrelated
non-class binding. -/
theorem enum_render_forwards_witness :
    RenderableEnum.render [("A", Member.cls true (fun _ : Unit => (3 : Nat)))] "A" () =
        Except.ok 3 ∧
      RenderableEnum.render
          ([("B", Member.value)] ++ [("A", Member.cls true (fun _ : Unit => (3 : Nat)))])
          "A" () =
        Except.ok 3 :=
  ⟨(enum_render_forwards [("A", Member.cls true (fun _ => 3))] "A" (fun _ => 3) ()).1 rfl,
    (enum_render_forwards [("B", Member.value)] "A" (fun _ => 3) ()).2 (by
      intro p hp
      rw [List.mem_singleton] at hp
      subst hp
      decide)⟩

/-- C10: when the member's defining module binds a non-class value under
the member's name, `render` raises the `TypeError` of the `issubclass`
test applied to a non-class, not the documented "No renderable class
found" lookup error. -/
theorem enum_render_nonclass {Cfg : Type u} {Out : Type v}
    (module : List (String × Member Cfg Out)) (selfName : String) (cfg : Cfg)
    (h : module.find? (fun p => p.1 == selfName) = some (selfName, Member.value)) :
    RenderableEnum.render module selfName cfg =
        Except.error (PyExc.typeError "issubclass() arg 1 must be a class") ∧
      RenderableEnum.render module selfName cfg ≠
        Except.error (PyExc.valueError ("No renderable class found for " ++ selfName)) := by
  have hmain : RenderableEnum.render module selfName cfg =
      Except.error (PyExc.typeError "issubclass() arg 1 must be a class") := by
    induction module with
    | nil => simp at h
    | cons p rest ih =>
      obtain ⟨name, m⟩ := p
      by_cases hn : name = selfName
      · rw [List.find?_cons_of_pos _ (by simp [hn])] at h
        simp only [Option.some.injEq, Prod.mk.injEq] at h
        obtain ⟨-, hm⟩ := h
        subst hm
        simp only [RenderableEnum.render, if_pos hn]
      · rw [List.find?_cons_of_neg _ (by simp [hn])] at h
        simp only [RenderableEnum.render, if_neg hn]
        exact ih h
  exact ⟨hmain, by simp [hmain]⟩

/-- Witness for C10: a module binding a non-class value under the
member's name. -/
theorem enum_render_nonclass_witness :
    RenderableEnum.render [("A", (Member.value : Member Unit Nat))] "A" () =
        Except.error (PyExc.typeError "issubclass() arg 1 must be a class") ∧
      RenderableEnum.render [("A", (Member.value : Member Unit Nat))] "A" () ≠
        Except.error (PyExc.valueError ("No renderable class found for " ++ "A")) :=
  enum_render_nonclass [("A", Member.value)] "A" () rfl

/-- C8: rendering the configuration with fields `a = 10`, `b = 0` against
the template `A{{a|myfilter}}|`, with the custom filter
`myfilter(x, a=1) = x + a` installed by the class's `set_environment`
hook, produces the output `A11.0|` (the filter is in the engine
environment before rendering, and `10 + 1` renders as `11.0`). -/
theorem render_filter_scenario :
    BaseConfig.render envScenario [["tmp", "template.jinja"]] ["tmp"] ["pkg"]
        ⟨10, 0⟩ [] = Except.ok ("A11.0|", ⟨10, 0⟩) := rfl
